import Mathlib

/-!
Verification of `ttkthemes/themed_tk.py` (class `ThemedTk`).

Shallow embedding of the module: the process-global `tk.Toplevel.__init__`
slot, the per-window state (`font_support`, current theme, the window's own
`background` option, the saved `self.__init__toplevel` attribute), the ttk
style state (the default font set by `style.configure(".", font=...)`), and
the font-loading loop of `_load_fonts`.

External collaborators (the theme registry `get_themes()`, the style lookup
`style.lookup("TFrame", "background", default="white")`, availability of the
`tkextrafont` module, success of `load_extrafont`, and the bundled font
directory tree) are parameters collected in `Env`.
-/

namespace ThemedTkSpec

/-- A value that can appear in the keyword arguments of the constructor:
the options of interest are either strings (`theme`) or booleans
(`toplevel`, `background`, `fonts`). -/
inductive Val where
  | str (s : String)
  | bool (b : Bool)
deriving DecidableEq, Repr

/-- A reference held by the process-global `tk.Toplevel.__init__` slot (or by
the saved attribute `self.__init__toplevel`): either the pre-existing original
constructor, or a wrapper closure installed by `_setup_toplevel_hook`, which
captured a background color.  The wrapper reads `self.__init__toplevel` at
call time (late binding), so the wrapper value itself only records the
color. -/
inductive Ctor where
  | original
  | hook (color : String)
deriving DecidableEq, Repr

/-- A font file in the bundled fonts directory tree:
`name` is the file name, `available` is the truthiness of
`self.font_info(font)`, `loadOk` records whether `self.load_font(font)`
succeeds (raises `tk.TclError` iff false). -/
structure FontFile where
  name : String
  available : Bool
  loadOk : Bool
deriving DecidableEq, Repr

/-- The external collaborators of `ThemedTk`, fixed for a run. -/
structure Env where
  /-- `self.get_themes()`: the theme registry. -/
  themes : List String
  /-- `style.lookup("TFrame", "background", default="white")` evaluated after
  the named theme has been applied; `none` means the lookup found no value
  (so the `default="white"` applies). -/
  lookupBg : String → Option String
  /-- Whether `import tkextrafont` succeeds (the module is installed). -/
  fontModuleAvailable : Bool
  /-- Whether `tkextrafont.load_extrafont(self)` succeeds. -/
  extrafontLoadOk : Bool
  /-- The bundled fonts directory: one list of files per subfolder. -/
  fontDirs : List (List FontFile)

/-- The ttk style state touched by `set_theme`:
`style.configure(".", font=...)` sets the default font. -/
structure StyleState where
  defaultFont : Option String
deriving DecidableEq, Repr

/-- The per-window instance state of a `ThemedTk`. -/
structure WinState where
  /-- `self.font_support`. -/
  font_support : Bool
  /-- The theme currently applied through `ThemedWidget.set_theme`. -/
  theme : Option String
  /-- The window's own `background` option: `some c` after
  `self.config(background=c)`, `none` while never set by this code. -/
  background : Option String
  /-- `self.__init__toplevel`, the attribute assigned at the end of
  `__init__` (and read, at call time, by the hook wrapper). -/
  init_toplevel : Ctor
deriving DecidableEq, Repr

/-- The state relevant to the claims: the process-global
`tk.Toplevel.__init__` slot, the style state, and the (single) window. -/
structure Proc where
  toplevelInit : Ctor
  style : StyleState
  win : WinState
deriving DecidableEq, Repr

/-- `ThemedTk.FONTS = {"adapta": "roboto"}`. -/
def FONTS : List (String × String) := [("adapta", "roboto")]

/-- The color `set_theme` computes:
`style.lookup("TFrame", "background", default="white")`. -/
def resolveColor (env : Env) (theme_name : String) : String :=
  (env.lookupBg theme_name).getD "white"

/-- `ThemedTk.set_theme(self, theme_name, toplevel=False, background=False)`:
applies the theme, resolves the frame background color, optionally sets the
window background, optionally installs the Toplevel hook, and sets the
default font when the theme has a font mapping and font support is on. -/
def set_theme (env : Env) (p : Proc) (theme_name : String)
    (toplevel background : Bool) : Proc :=
  -- ThemedWidget.set_theme(self, theme_name)
  let win := { p.win with theme := some theme_name }
  -- color = style.lookup("TFrame", "background", default="white")
  let color := resolveColor env theme_name
  -- if background is True: self.config(background=color)
  let win := if background then { win with background := some color } else win
  -- if toplevel is True: self._setup_toplevel_hook(color), which executes
  -- tk.Toplevel.__init__ = __toplevel__ (a fresh wrapper capturing color)
  let tli := if toplevel then Ctor.hook color else p.toplevelInit
  -- if theme_name in self.FONTS and self.font_support:
  --     style.configure(".", font=self.FONTS[theme_name])
  let st :=
    match FONTS.lookup theme_name with
    | some f => if p.win.font_support then { p.style with defaultFont := some f }
                else p.style
    | none => p.style
  { toplevelInit := tli, style := st, win := win }

/-- One `tk.Toplevel(...)` child-window construction, evaluated against the
current global constructor slot `g` and the value `saved` held by
`self.__init__toplevel` at that moment.  `bg` is the `background` option
explicitly passed by the caller (`none` if absent).  Result: `none` when the
construction never completes (unbounded recursion), `some b` when it
completes with `b` as the effective `background` option (`some none` means
the option was never supplied, leaving the toolkit default).

When `g` is a hook wrapper, the wrapper runs `kwargs.setdefault("background",
color)` and then calls `self.__init__toplevel(...)`; if that saved attribute
is itself a hook wrapper, the callee again reads the same attribute and calls
itself forever (`RecursionError`). -/
def applyCtor (g saved : Ctor) (bg : Option String) : Option (Option String) :=
  match g with
  | Ctor.original => some bg
  | Ctor.hook color =>
    let bg := some (bg.getD color)
    match saved with
    | Ctor.original => some bg
    | Ctor.hook _ => none

/-- Errors `_load_fonts` can raise into `__init__` (both are caught there). -/
inductive FontErr where
  | importError
  | tclError
deriving DecidableEq, Repr

/-- The inner loop of `_load_fonts` over the files of one folder: skip files
without the `.ttf` suffix, skip unavailable fonts (printing), attempt
`self.load_font(font)` and continue past a `tk.TclError`.  Returns the names
of the fonts actually loaded into the process. -/
def loadLoop : List FontFile → List String
  | [] => []
  | f :: rest =>
    if ¬ (f.name.endsWith ".ttf") then loadLoop rest
    else if ¬ f.available then loadLoop rest
    else if f.loadOk then f.name :: loadLoop rest
    else loadLoop rest

/-- The outer loop of `_load_fonts` over the subfolders of the fonts
directory. -/
def load_fonts_dirs : List (List FontFile) → List String
  | [] => []
  | d :: rest => loadLoop d ++ load_fonts_dirs rest

/-- `ThemedTk._load_fonts(self)`: `import tkextrafont` (raises `ImportError`
when the module is absent), `tkextrafont.load_extrafont(self)` (may raise
`tk.TclError`), then the directory loop.  On success, returns the names of
the fonts loaded. -/
def load_fonts (env : Env) : Except FontErr (List String) :=
  if env.fontModuleAvailable = false then Except.error FontErr.importError
  else if env.extrafontLoadOk = false then Except.error FontErr.tclError
  else Except.ok (load_fonts_dirs env.fontDirs)

/-- The result of constructing a `ThemedTk`: the resulting state and the
names of the font files that were loaded into the process during
construction. -/
structure CoreResult where
  proc : Proc
  loadedFonts : List String
deriving DecidableEq, Repr

/-- The body of `ThemedTk.__init__` after the four option pops: font
loading with its `try/except (tk.TclError, ImportError)`, the conditional
initial `set_theme`, and the final `self.__init__toplevel =
tk.Toplevel.__init__` assignment.  `g0` is the value of
`tk.Toplevel.__init__` when construction starts and `s0` the initial style
state.  The function is total: no exception escapes this part of the
constructor. -/
def themedTkInitCore (env : Env) (theme : Option String)
    (toplevel background fonts : Bool) (g0 : Ctor) (s0 : StyleState) :
    CoreResult :=
  -- try: self._load_fonts(); self.font_support = True and fonts
  -- except (tk.TclError, ImportError): self.font_support = False
  let fontRes := load_fonts env
  let fs := match fontRes with
    | Except.ok _ => fonts      -- `True and fonts` evaluates to `fonts`
    | Except.error _ => false
  let loaded := match fontRes with
    | Except.ok l => l
    | Except.error _ => []
  -- self.__init__toplevel is not yet assigned here; the field value below is
  -- never read before the assignment at the end of the constructor.
  let win0 : WinState :=
    { font_support := fs, theme := none, background := none,
      init_toplevel := g0 }
  let p0 : Proc := { toplevelInit := g0, style := s0, win := win0 }
  -- if theme is not None and theme in self.get_themes():
  --     self.set_theme(theme, toplevel, background)
  let p1 := match theme with
    | some t => if t ∈ env.themes then set_theme env p0 t toplevel background
                else p0
    | none => p0
  -- self.__init__toplevel = tk.Toplevel.__init__
  let p2 := { p1 with win := { p1.win with init_toplevel := p1.toplevelInit } }
  { proc := p2, loadedFonts := loaded }

/-- `kwargs.pop(k, default)` on a Python dict, modelled on an association
list with unique keys: the value bound to `k` (if any) together with the
list with every binding of `k` removed. -/
def popKw (k : String) (kw : List (String × Val)) :
    Option Val × List (String × Val) :=
  (kw.lookup k, kw.filter (fun p => p.1 ≠ k))

/-- The value of the popped `theme` option as `__init__` consumes it: only a
string present in the registry leads to a `set_theme` call, so a missing or
non-string value behaves as `None`. -/
def valTheme : Option Val → Option String
  | some (Val.str s) => some s
  | _ => none

/-- The truthiness test the code applies to the popped flags (`is True` in
`set_theme`; default `False` when absent). -/
def valIsTrue : Option Val → Bool
  | some (Val.bool b) => b
  | _ => false

/-- The observable outcome of `ThemedTk.__init__(self, *args, **kwargs)`:
the resulting state, and the positional and keyword arguments that were
delegated to `tk.Tk.__init__`. -/
structure InitResult where
  core : CoreResult
  tkArgs : List Val
  tkKwargs : List (String × Val)

/-- `ThemedTk.__init__(self, *args, **kwargs)`: pops `theme`, `toplevel`,
`background` and `fonts` from the keyword arguments, delegates the rest to
`tk.Tk.__init__(self, *args, **kwargs)`, then runs the constructor body. -/
def themedTkInit (env : Env) (args : List Val) (kwargs : List (String × Val))
    (g0 : Ctor) (s0 : StyleState) : InitResult :=
  let (theme, kw1) := popKw "theme" kwargs
  let (toplevel, kw2) := popKw "toplevel" kw1
  let (background, kw3) := popKw "background" kw2
  let (fonts, kw4) := popKw "fonts" kw3
  { core := themedTkInitCore env (valTheme theme) (valIsTrue toplevel)
      (valIsTrue background) (valIsTrue fonts) g0 s0,
    tkArgs := args, tkKwargs := kw4 }

/-- An operation on the window after construction (the only state-changing
operation the module offers). -/
inductive Op where
  | setThemeOp (name : String) (toplevel background : Bool)
deriving DecidableEq, Repr

/-- Run a sequence of post-construction operations. -/
def runOps (env : Env) (p : Proc) : List Op → Proc
  | [] => p
  | Op.setThemeOp t tl bg :: rest => runOps env (set_theme env p t tl bg) rest

/-! ## Helper lemmas -/

/-- `set_theme` never touches the saved `self.__init__toplevel` attribute. -/
lemma set_theme_init_toplevel (env : Env) (p : Proc) (t : String)
    (tl bg : Bool) :
    (set_theme env p t tl bg).win.init_toplevel = p.win.init_toplevel := by
  simp only [set_theme]
  split <;> rfl

/-- `set_theme` never touches the `font_support` flag. -/
lemma set_theme_font_support (env : Env) (p : Proc) (t : String)
    (tl bg : Bool) :
    (set_theme env p t tl bg).win.font_support = p.win.font_support := by
  simp only [set_theme]
  split <;> rfl

/-- The `font_support` flag produced by the constructor body: the popped
`fonts` flag when `_load_fonts` succeeded, `false` when it raised. -/
lemma core_font_support (env : Env) (theme : Option String)
    (tl bg fonts : Bool) (g0 : Ctor) (s0 : StyleState) :
    (themedTkInitCore env theme tl bg fonts g0 s0).proc.win.font_support =
      (match load_fonts env with
       | Except.ok _ => fonts
       | Except.error _ => false) := by
  simp only [themedTkInitCore]
  cases theme with
  | none => rfl
  | some t =>
    by_cases h : t ∈ env.themes
    · simp only [if_pos h, set_theme_font_support]
    · simp only [if_neg h]

/-- The fonts loaded into the process by the constructor body. -/
lemma core_loadedFonts (env : Env) (theme : Option String)
    (tl bg fonts : Bool) (g0 : Ctor) (s0 : StyleState) :
    (themedTkInitCore env theme tl bg fonts g0 s0).loadedFonts =
      (match load_fonts env with
       | Except.ok l => l
       | Except.error _ => []) := by
  simp only [themedTkInitCore]

/-- Once the global slot holds a hook, no sequence of `set_theme` calls ever
puts the original constructor back. -/
lemma runOps_ne_original (env : Env) (p : Proc) (ops : List Op)
    (h : p.toplevelInit ≠ Ctor.original) :
    (runOps env p ops).toplevelInit ≠ Ctor.original := by
  induction ops generalizing p with
  | nil => exact h
  | cons op rest ih =>
    cases op with
    | setThemeOp t tl bg =>
      apply ih
      simp only [set_theme]
      split
      · exact fun hc => Ctor.noConfusion hc
      · exact h

/-- `set_theme` rebinds the global `tk.Toplevel.__init__` slot to a fresh
wrapper exactly when `toplevel` is true, and leaves it alone otherwise. -/
lemma set_theme_toplevelInit_eq (env : Env) (p : Proc) (t : String)
    (tl bg : Bool) :
    (set_theme env p t tl bg).toplevelInit =
      (if tl then Ctor.hook (resolveColor env t) else p.toplevelInit) := rfl

/-! ## Claims -/

/-- Claim C4: for every theme name passed at construction that is not in the
theme registry — and likewise when no theme is passed — construction applies
no theme and performs none of the theme side effects: the window background
is untouched, the Toplevel hook is not installed (the global slot and the
saved attribute both keep the initial constructor), and the style's default
font is unchanged.  Completion without error is modelled by
`themedTkInitCore` being a total function. -/
theorem init_unknown_theme_no_effects (env : Env) (theme : Option String)
    (tl bg fonts : Bool) (g0 : Ctor) (s0 : StyleState)
    (h : ∀ t, theme = some t → t ∉ env.themes) :
    (themedTkInitCore env theme tl bg fonts g0 s0).proc.win.theme = none ∧
    (themedTkInitCore env theme tl bg fonts g0 s0).proc.win.background = none ∧
    (themedTkInitCore env theme tl bg fonts g0 s0).proc.toplevelInit = g0 ∧
    (themedTkInitCore env theme tl bg fonts g0 s0).proc.win.init_toplevel = g0 ∧
    (themedTkInitCore env theme tl bg fonts g0 s0).proc.style = s0 := by
  cases theme with
  | none => simp [themedTkInitCore]
  | some t =>
    have ht : t ∉ env.themes := h t rfl
    simp [themedTkInitCore, if_neg ht]

/-- Concrete environment whose registry does not contain `"nosuch"`. -/
def envUnknown : Env :=
  { themes := ["alpha"], lookupBg := fun _ => none,
    fontModuleAvailable := false, extrafontLoadOk := true, fontDirs := [] }

/-- Witness for C4 at the concrete theme name `"nosuch"`. -/
theorem init_unknown_theme_no_effects_witness :
    (themedTkInitCore envUnknown (some "nosuch") true true true Ctor.original
        ⟨none⟩).proc.win.theme = none ∧
    (themedTkInitCore envUnknown (some "nosuch") true true true Ctor.original
        ⟨none⟩).proc.win.background = none ∧
    (themedTkInitCore envUnknown (some "nosuch") true true true Ctor.original
        ⟨none⟩).proc.toplevelInit = Ctor.original ∧
    (themedTkInitCore envUnknown (some "nosuch") true true true Ctor.original
        ⟨none⟩).proc.win.init_toplevel = Ctor.original ∧
    (themedTkInitCore envUnknown (some "nosuch") true true true Ctor.original
        ⟨none⟩).proc.style = ⟨none⟩ :=
  init_unknown_theme_no_effects envUnknown (some "nosuch") true true true
    Ctor.original ⟨none⟩
    (fun t ht => by injection ht with h; subst h; decide)

/-- Claim C5: `set_theme` with `background=true` sets the window's own
background option to exactly the color the style engine resolves for the
frame class (`style.lookup("TFrame", "background", default="white")` after
the theme is applied); with `background=false` the window background is left
as it was. -/
theorem set_theme_background_option (env : Env) (p : Proc) (t : String)
    (tl : Bool) :
    (set_theme env p t tl true).win.background = some (resolveColor env t) ∧
    (set_theme env p t tl false).win.background = p.win.background :=
  ⟨rfl, rfl⟩

/-- Claim C6: when the `tkextrafont` module is absent, the `ImportError`
raised inside `_load_fonts` is caught by the constructor (`themedTkInitCore`
is total, so construction completes) and the `font_support` flag ends up
false. -/
theorem init_missing_font_module (env : Env) (theme : Option String)
    (tl bg fonts : Bool) (g0 : Ctor) (s0 : StyleState)
    (h : env.fontModuleAvailable = false) :
    (themedTkInitCore env theme tl bg fonts g0 s0).proc.win.font_support
      = false := by
  rw [core_font_support]
  simp [load_fonts, h]

/-- Concrete environment without the `tkextrafont` module. -/
def envNoModule : Env :=
  { themes := [], lookupBg := fun _ => none,
    fontModuleAvailable := false, extrafontLoadOk := true, fontDirs := [] }

/-- Witness for C6 on a concrete environment. -/
theorem init_missing_font_module_witness :
    (themedTkInitCore envNoModule none false false true Ctor.original
        ⟨none⟩).proc.win.font_support = false :=
  init_missing_font_module envNoModule none false false true Ctor.original
    ⟨none⟩ rfl

/-- Claim C7: with `fonts=false` the `font_support` flag is false whatever
happens during font loading, and `font_support` can be true only when
`fonts=true` and `_load_fonts` raised no error. -/
theorem font_support_requires_fonts_flag (env : Env) (theme : Option String)
    (tl bg fonts : Bool) (g0 : Ctor) (s0 : StyleState) :
    (themedTkInitCore env theme tl bg false g0 s0).proc.win.font_support
        = false ∧
    ((themedTkInitCore env theme tl bg fonts g0 s0).proc.win.font_support
        = true →
      fonts = true ∧ ∃ l, load_fonts env = Except.ok l) := by
  constructor
  · rw [core_font_support]
    cases h : load_fonts env <;> simp
  · rw [core_font_support]
    cases h : load_fonts env with
    | ok l => exact fun hf => ⟨hf, l, rfl⟩
    | error e => simp

/-- Concrete environment where font loading succeeds. -/
def envFontsOk : Env :=
  { themes := [], lookupBg := fun _ => none,
    fontModuleAvailable := true, extrafontLoadOk := true, fontDirs := [] }

/-- Witness for C7 on a concrete environment, with the inner hypothesis
discharged at `fonts=true`. -/
theorem font_support_requires_fonts_flag_witness :
    (themedTkInitCore envFontsOk none false false false Ctor.original
        ⟨none⟩).proc.win.font_support = false ∧
    (true = true ∧ ∃ l, load_fonts envFontsOk = Except.ok l) :=
  ⟨(font_support_requires_fonts_flag envFontsOk none false false true
      Ctor.original ⟨none⟩).1,
   (font_support_requires_fonts_flag envFontsOk none false false true
      Ctor.original ⟨none⟩).2 (by decide)⟩

/-- Claim C8: a font file that fails — wrong suffix, reported unavailable,
or whose load raises `tk.TclError` — is skipped without affecting what the
loop does to every other file, before or after it: the loop on the list with
the failing file equals the loop on the list without it. -/
theorem load_font_failure_skips_file (pre post : List FontFile) (f : FontFile)
    (h : f.name.endsWith ".ttf" = false ∨ f.available = false ∨
      f.loadOk = false) :
    loadLoop (pre ++ f :: post) = loadLoop (pre ++ post) := by
  induction pre with
  | nil =>
    simp only [List.nil_append, loadLoop]
    rcases h with h | h | h <;> simp [h]
  | cons g rest ih =>
    simp only [List.cons_append, loadLoop, List.append_eq, ih]

/-- Witness for C8: a file whose load raises `TclError` sits between two
loadable files; both neighbours are still loaded. -/
theorem load_font_failure_skips_file_witness :
    loadLoop [⟨"a.ttf", true, true⟩, ⟨"bad.ttf", true, false⟩,
        ⟨"c.ttf", true, true⟩] =
      loadLoop [⟨"a.ttf", true, true⟩, ⟨"c.ttf", true, true⟩] :=
  load_font_failure_skips_file [⟨"a.ttf", true, true⟩]
    [⟨"c.ttf", true, true⟩] ⟨"bad.ttf", true, false⟩ (Or.inr (Or.inr rfl))

/-- Claim C1 (amended): after a `set_theme` call with `toplevel=true` on a
window whose saved `self.__init__toplevel` attribute holds the pre-existing
original `Toplevel` constructor (as it does when the hook was not installed
during that window's own construction), a child window created without an
explicit `background` option receives the resolved frame background color,
and one created with an explicit `background` keeps its explicit value. -/
theorem set_theme_hook_child_background (env : Env) (p : Proc) (t : String)
    (bg : Bool) (b : String) (h : p.win.init_toplevel = Ctor.original) :
    applyCtor (set_theme env p t true bg).toplevelInit
        (set_theme env p t true bg).win.init_toplevel none
      = some (some (resolveColor env t)) ∧
    applyCtor (set_theme env p t true bg).toplevelInit
        (set_theme env p t true bg).win.init_toplevel (some b)
      = some (some b) := by
  have h1 : (set_theme env p t true bg).win.init_toplevel = Ctor.original := by
    rw [set_theme_init_toplevel]; exact h
  have h2 : (set_theme env p t true bg).toplevelInit
      = Ctor.hook (resolveColor env t) := by
    rw [set_theme_toplevelInit_eq]; rfl
  rw [h1, h2]
  exact ⟨rfl, rfl⟩

/-- Concrete environment whose registry contains `"adapta"`, resolving its
frame background to `"#112233"`. -/
def envAdapta : Env :=
  { themes := ["adapta"],
    lookupBg := fun t => if t = "adapta" then some "#112233" else none,
    fontModuleAvailable := false, extrafontLoadOk := true, fontDirs := [] }

/-- Witness for the amended C1: a post-construction `set_theme` call on a
window whose saved constructor is the original. -/
theorem set_theme_hook_child_background_witness :
    applyCtor
        (set_theme envAdapta
          (themedTkInitCore envAdapta none false false false Ctor.original
            ⟨none⟩).proc "adapta" true false).toplevelInit
        (set_theme envAdapta
          (themedTkInitCore envAdapta none false false false Ctor.original
            ⟨none⟩).proc "adapta" true false).win.init_toplevel none
      = some (some (resolveColor envAdapta "adapta")) ∧
    applyCtor
        (set_theme envAdapta
          (themedTkInitCore envAdapta none false false false Ctor.original
            ⟨none⟩).proc "adapta" true false).toplevelInit
        (set_theme envAdapta
          (themedTkInitCore envAdapta none false false false Ctor.original
            ⟨none⟩).proc "adapta" true false).win.init_toplevel
        (some "green")
      = some (some "green") :=
  set_theme_hook_child_background envAdapta
    (themedTkInitCore envAdapta none false false false Ctor.original
      ⟨none⟩).proc "adapta" false "green" (by decide)

/-- Counterexample to C1 as stated: when `SetTheme` runs during construction
(theme `"adapta"` with `toplevel=true` passed to the constructor), the
constructor afterwards saves the freshly installed wrapper itself into
`self.__init__toplevel`; a child window then created without an explicit
background never finishes constructing (the wrapper delegates to itself,
modelled by `applyCtor` returning `none`), so it does not receive the
resolved background color `"#112233"`. -/
theorem set_theme_hook_child_background_cex :
    applyCtor
        (themedTkInitCore envAdapta (some "adapta") true false false
          Ctor.original ⟨none⟩).proc.toplevelInit
        (themedTkInitCore envAdapta (some "adapta") true false false
          Ctor.original ⟨none⟩).proc.win.init_toplevel none
      ≠ some (some "#112233") := by decide

/-- Claim C2: constructing with a registered theme and `toplevel=true` saves,
as the "original" Toplevel constructor, the very wrapper the hook just
installed: the saved attribute equals the global slot's wrapper, differs from
the pre-existing constructor, and a child construction under it never
completes (the wrapper delegates to itself).  The saved attribute is
untouched by later `set_theme` calls and equals the original constructor
when construction did not install the hook — so only a hook installed by a
post-construction `SetTheme` call delegates to the true original. -/
theorem init_saves_wrapper_as_original (env : Env) (t : String)
    (bg fonts : Bool) (s0 : StyleState) (h : t ∈ env.themes) :
    (themedTkInitCore env (some t) true bg fonts Ctor.original
        s0).proc.win.init_toplevel = Ctor.hook (resolveColor env t) ∧
    (themedTkInitCore env (some t) true bg fonts Ctor.original
        s0).proc.win.init_toplevel ≠ Ctor.original ∧
    (themedTkInitCore env (some t) true bg fonts Ctor.original
        s0).proc.win.init_toplevel =
      (themedTkInitCore env (some t) true bg fonts Ctor.original
        s0).proc.toplevelInit ∧
    applyCtor
      (themedTkInitCore env (some t) true bg fonts Ctor.original
        s0).proc.toplevelInit
      (themedTkInitCore env (some t) true bg fonts Ctor.original
        s0).proc.win.init_toplevel none = none ∧
    (∀ q t2 tl2 bg2,
      (set_theme env q t2 tl2 bg2).win.init_toplevel = q.win.init_toplevel) ∧
    (∀ bg2 fonts2,
      (themedTkInitCore env (some t) false bg2 fonts2 Ctor.original
        s0).proc.win.init_toplevel = Ctor.original) := by
  have key : ∀ tl bg2 fonts2,
      (themedTkInitCore env (some t) tl bg2 fonts2 Ctor.original
          s0).proc.win.init_toplevel =
        (if tl then Ctor.hook (resolveColor env t) else Ctor.original) ∧
      (themedTkInitCore env (some t) tl bg2 fonts2 Ctor.original
          s0).proc.toplevelInit =
        (if tl then Ctor.hook (resolveColor env t) else Ctor.original) := by
    intro tl bg2 fonts2
    simp only [themedTkInitCore, if_pos h, set_theme_toplevelInit_eq]
    exact ⟨trivial, trivial⟩
  refine ⟨?_, ?_, ?_, ?_, ?_, ?_⟩
  · simpa using (key true bg fonts).1
  · rw [(key true bg fonts).1]; simp
  · rw [(key true bg fonts).1, (key true bg fonts).2]
  · rw [(key true bg fonts).1, (key true bg fonts).2]; rfl
  · exact fun q t2 tl2 bg2 => set_theme_init_toplevel env q t2 tl2 bg2
  · exact fun bg2 fonts2 => by simpa using (key false bg2 fonts2).1

/-- Witness for C2 at the concrete environment `envAdapta`. -/
theorem init_saves_wrapper_as_original_witness :
    (themedTkInitCore envAdapta (some "adapta") true false false Ctor.original
        ⟨none⟩).proc.win.init_toplevel
      = Ctor.hook (resolveColor envAdapta "adapta") ∧
    (themedTkInitCore envAdapta (some "adapta") true false false Ctor.original
        ⟨none⟩).proc.win.init_toplevel ≠ Ctor.original ∧
    (themedTkInitCore envAdapta (some "adapta") true false false Ctor.original
        ⟨none⟩).proc.win.init_toplevel =
      (themedTkInitCore envAdapta (some "adapta") true false false
        Ctor.original ⟨none⟩).proc.toplevelInit ∧
    applyCtor
      (themedTkInitCore envAdapta (some "adapta") true false false
        Ctor.original ⟨none⟩).proc.toplevelInit
      (themedTkInitCore envAdapta (some "adapta") true false false
        Ctor.original ⟨none⟩).proc.win.init_toplevel none = none ∧
    (∀ q t2 tl2 bg2,
      (set_theme envAdapta q t2 tl2 bg2).win.init_toplevel
        = q.win.init_toplevel) ∧
    (∀ bg2 fonts2,
      (themedTkInitCore envAdapta (some "adapta") false bg2 fonts2
        Ctor.original ⟨none⟩).proc.win.init_toplevel = Ctor.original) :=
  init_saves_wrapper_as_original envAdapta "adapta" false false ⟨none⟩
    (by decide)

/-- Claim C3 (amended): every `set_theme` call with `toplevel=true` rebinds
the process-wide Toplevel constructor slot to a wrapper capturing the newly
resolved color — so the slot can be rebound once per such call, not at most
once per window lifetime — and once the slot no longer holds the original
constructor, no sequence of further operations ever restores the original. -/
theorem hook_rebinds_per_call_and_persists (env : Env) (p : Proc) (t : String)
    (bg : Bool) (ops : List Op) :
    (set_theme env p t true bg).toplevelInit
      = Ctor.hook (resolveColor env t) ∧
    (p.toplevelInit ≠ Ctor.original →
      (runOps env p ops).toplevelInit ≠ Ctor.original) :=
  ⟨by rw [set_theme_toplevelInit_eq]; rfl,
   fun h => runOps_ne_original env p ops h⟩

/-- Concrete environment with two registered themes resolving to different
frame background colors. -/
def envTwoThemes : Env :=
  { themes := ["alpha", "beta"],
    lookupBg := fun t =>
      if t = "alpha" then some "red"
      else if t = "beta" then some "blue" else none,
    fontModuleAvailable := false, extrafontLoadOk := true, fontDirs := [] }

/-- Witness for the amended C3, with the persistence hypothesis discharged
on a state already holding a hook. -/
theorem hook_rebinds_per_call_and_persists_witness :
    (set_theme envTwoThemes
        ⟨Ctor.hook "red", ⟨none⟩, ⟨false, none, none, Ctor.original⟩⟩
        "beta" true false).toplevelInit
      = Ctor.hook (resolveColor envTwoThemes "beta") ∧
    (runOps envTwoThemes
        ⟨Ctor.hook "red", ⟨none⟩, ⟨false, none, none, Ctor.original⟩⟩
        [Op.setThemeOp "beta" true false]).toplevelInit
      ≠ Ctor.original :=
  ⟨(hook_rebinds_per_call_and_persists envTwoThemes
      ⟨Ctor.hook "red", ⟨none⟩, ⟨false, none, none, Ctor.original⟩⟩
      "beta" false [Op.setThemeOp "beta" true false]).1,
   (hook_rebinds_per_call_and_persists envTwoThemes
      ⟨Ctor.hook "red", ⟨none⟩, ⟨false, none, none, Ctor.original⟩⟩
      "beta" false [Op.setThemeOp "beta" true false]).2 (by decide)⟩

/-- Counterexample to C3 as stated: during one window's lifetime
(construction followed by two `set_theme` calls with `toplevel=true`), the
process-wide constructor slot is rebound twice — from the original to a
wrapper capturing `"red"`, then to a different wrapper capturing `"blue"` —
refuting "rebound at most once per window lifetime". -/
theorem hook_rebound_twice_cex :
    (themedTkInitCore envTwoThemes none false false false Ctor.original
        ⟨none⟩).proc.toplevelInit = Ctor.original ∧
    (runOps envTwoThemes
        (themedTkInitCore envTwoThemes none false false false Ctor.original
          ⟨none⟩).proc
        [Op.setThemeOp "alpha" true false]).toplevelInit
      = Ctor.hook "red" ∧
    (runOps envTwoThemes
        (themedTkInitCore envTwoThemes none false false false Ctor.original
          ⟨none⟩).proc
        [Op.setThemeOp "alpha" true false, Op.setThemeOp "beta" true false]
      ).toplevelInit = Ctor.hook "blue" ∧
    Ctor.hook "red" ≠ Ctor.original ∧
    Ctor.hook "blue" ≠ Ctor.hook "red" := by decide

/-- Claim C9: the constructor removes the four options `theme`, `toplevel`,
`background` and `fonts` from the keyword arguments before invoking
`tk.Tk.__init__`, and passes every other positional and keyword argument to
it unchanged. -/
theorem init_strips_themed_options (env : Env) (args : List Val)
    (kwargs : List (String × Val)) (g0 : Ctor) (s0 : StyleState) :
    (themedTkInit env args kwargs g0 s0).tkArgs = args ∧
    (themedTkInit env args kwargs g0 s0).tkKwargs =
      kwargs.filter (fun q => decide (q.1 ≠ "theme" ∧ q.1 ≠ "toplevel" ∧
        q.1 ≠ "background" ∧ q.1 ≠ "fonts")) := by
  refine ⟨rfl, ?_⟩
  show ((((kwargs.filter (fun q => q.1 ≠ "theme")).filter
      (fun q => q.1 ≠ "toplevel")).filter
      (fun q => q.1 ≠ "background")).filter
      (fun q => q.1 ≠ "fonts")) = _
  rw [List.filter_filter, List.filter_filter, List.filter_filter]
  exact List.filter_congr (fun x _ => by
    by_cases h1 : x.1 = "theme" <;> by_cases h2 : x.1 = "toplevel" <;>
      by_cases h3 : x.1 = "background" <;> by_cases h4 : x.1 = "fonts" <;>
      simp [h1, h2, h3, h4])

/-- Claim C10: font loading is attempted during every construction whatever
the `fonts` option is: the set of fonts loaded into the process is the same
for `fonts=false` as for `fonts=true` — in particular, when the font module
imports and initialises, the whole bundled directory tree is loaded even
with `fonts=false` — while `fonts=false` merely forces the `font_support`
flag to false afterwards. -/
theorem fonts_loaded_regardless_of_flag (env : Env) (theme : Option String)
    (tl bg : Bool) (g0 : Ctor) (s0 : StyleState) :
    (themedTkInitCore env theme tl bg false g0 s0).loadedFonts =
      (themedTkInitCore env theme tl bg true g0 s0).loadedFonts ∧
    (themedTkInitCore env theme tl bg false g0 s0).proc.win.font_support
      = false ∧
    (env.fontModuleAvailable = true → env.extrafontLoadOk = true →
      (themedTkInitCore env theme tl bg false g0 s0).loadedFonts =
        load_fonts_dirs env.fontDirs) := by
  refine ⟨?_, ?_, ?_⟩
  · rw [core_loadedFonts, core_loadedFonts]
  · rw [core_font_support]
    cases h : load_fonts env <;> rfl
  · intro h1 h2
    rw [core_loadedFonts]
    simp [load_fonts, h1, h2]

/-- Concrete environment with a loadable font file. -/
def envOneFont : Env :=
  { themes := [], lookupBg := fun _ => none,
    fontModuleAvailable := true, extrafontLoadOk := true,
    fontDirs := [[⟨"roboto.ttf", true, true⟩]] }

/-- Witness for C10: with `fonts=false` on an environment holding one
loadable font, the font is loaded anyway and `font_support` stays false. -/
theorem fonts_loaded_regardless_of_flag_witness :
    (themedTkInitCore envOneFont none false false false Ctor.original
        ⟨none⟩).loadedFonts =
      (themedTkInitCore envOneFont none false false true Ctor.original
        ⟨none⟩).loadedFonts ∧
    (themedTkInitCore envOneFont none false false false Ctor.original
        ⟨none⟩).proc.win.font_support = false ∧
    (themedTkInitCore envOneFont none false false false Ctor.original
        ⟨none⟩).loadedFonts = load_fonts_dirs envOneFont.fontDirs :=
  ⟨(fonts_loaded_regardless_of_flag envOneFont none false false Ctor.original
      ⟨none⟩).1,
   (fonts_loaded_regardless_of_flag envOneFont none false false Ctor.original
      ⟨none⟩).2.1,
   (fonts_loaded_regardless_of_flag envOneFont none false false Ctor.original
      ⟨none⟩).2.2 rfl rfl⟩

end ThemedTkSpec
